import Mathlib

/-!
Shallow embedding of the core of `src/claim.js` (a faucet-claiming client for
the MegaETH test network) and proofs about its retry, gas, network-check,
payload-encoding and orchestration behaviour.

Modelling conventions:
* JavaScript async functions that either return a value or throw become Lean
  functions into `Except String α` (the `String` is the error message).
* The remote node is an oracle: each RPC interaction's outcome is a field of
  an `Env` value, and per-attempt outcomes are functions `ℕ → Env` indexed by
  the (1-based) attempt number.
* `Math.random()` is a supplied stream of rationals in `[0, 1)`.
* Machine integers are `ℤ`/`ℕ`; amounts fit comfortably, no overflow arises.
* Side effects we reason about (log lines, transaction submissions, backoff
  sleeps) are collected in explicit lists.
-/

namespace ClaimFaucet

/-- Log severity levels of the winston logger in `claim.js`. -/
inductive LogLevel
  | info
  | warn
  | error
  deriving DecidableEq, Repr

/-- One rendered log line. -/
structure LogEvent where
  level : LogLevel
  msg : String
  deriving DecidableEq, Repr

/-- Everything observable about one `retryLogic` run: the returned value
(`none` models JavaScript `undefined` when the loop body never runs, i.e.
`maxAttempts = 0`; `some (.ok v)` a normal return; `some (.error e)` a throw),
the number of times the wrapped operation was invoked, the backoff sleep
durations in seconds, the side effects of each executed attempt (in order),
and the log lines emitted by `retryLogic` itself. -/
structure RetryOutcome (α σ : Type) where
  result : Option (Except String α)
  attempts : ℕ
  sleeps : List ℤ
  effects : List σ
  logs : List LogEvent
  deriving Repr

/-- The backoff pause drawn on a failed (non-final) attempt:
`Math.floor(Math.random() * (pauseRange[1] - pauseRange[0] + 1) + pauseRange[0])`
with `r` the `Math.random()` draw. -/
def pauseDraw (lo hi : ℤ) (r : ℚ) : ℤ :=
  ⌊r * ((hi : ℚ) - (lo : ℚ) + 1) + (lo : ℚ)⌋

/-- The body of `retryLogic` (claim.js lines 36-54). `fuel` is the number of
attempts still allowed (`maxAttempts - attempt + 1`), `attempt` the 1-based
attempt counter. `op a` gives attempt `a`'s outcome together with its side
effects; `rand a` is the `Math.random()` draw used after a failed attempt
`a`. -/
def retryAux {α σ : Type} (accountIndex : String) (op : ℕ → Except String α × List σ)
    (rand : ℕ → ℚ) (lo hi : ℤ) : ℕ → ℕ → RetryOutcome α σ
  | 0, _ => ⟨none, 0, [], [], []⟩
  | fuel + 1, attempt =>
    match op attempt with
    | (.ok v, eff) => ⟨some (.ok v), 1, [], eff, []⟩
    | (.error e, eff) =>
      if fuel = 0 then
        ⟨some (.error e), 1, [], eff,
          [⟨.error, accountIndex ++ " | Max attempts reached: " ++ e⟩]⟩
      else
        let pause : ℤ := pauseDraw lo hi (rand attempt)
        let rest := retryAux accountIndex op rand lo hi fuel (attempt + 1)
        ⟨rest.result, rest.attempts + 1, pause :: rest.sleeps, eff ++ rest.effects,
          ⟨.warn, accountIndex ++ " | Attempt " ++ toString attempt ++ " failed: " ++ e ++
            ". Retrying in " ++ toString pause ++ "s..."⟩ :: rest.logs⟩

/-- Model of `retryLogic(fn, maxAttempts, pauseRange, accountIndex)` of claim.js:
run `op` starting at attempt 1 with `maxAttempts` units of fuel. -/
def retryLogic {α σ : Type} (accountIndex : String) (op : ℕ → Except String α × List σ)
    (maxAttempts : ℕ) (lo hi : ℤ) (rand : ℕ → ℚ) : RetryOutcome α σ :=
  retryAux accountIndex op rand lo hi maxAttempts 1

/-- Constant `CHAIN_ID = 6342` (claim.js line 21). -/
def CHAIN_ID : ℤ := 6342

/-- JavaScript truthiness of a nullable BigInt field: `null`/`undefined` and
`0n` are falsy, every other BigInt is truthy. -/
def jsTruthyInt : Option ℤ → Bool
  | none => false
  | some v => v != 0

/-- The two fee fields of the `getFeeData()` answer that `getGasParams`
inspects; `none` models a `null` field. -/
structure FeeData where
  maxFeePerGas : Option ℤ
  maxPriorityFeePerGas : Option ℤ
  deriving DecidableEq, Repr

/-- The value returned by `getGasParams`: either the EIP-1559 pair or a
legacy gas price, in wei. -/
inductive GasParams
  | eip1559 (maxFeePerGas maxPriorityFeePerGas : ℤ)
  | legacy (gasPrice : ℤ)
  deriving DecidableEq, Repr

/-- Value of `ethers.parseUnits("20", "gwei")`: 20 gwei in wei. -/
def twentyGwei : ℤ := 20 * 10 ^ 9

/-- Model of `Web3Custom.getGasParams` (claim.js lines 97-113): its argument is the
outcome of the `getFeeData()` query (`Except.error` models a rejected
promise). -/
def getGasParams (feeDataR : Except String FeeData) : GasParams :=
  match feeDataR with
  | .error _ => .legacy twentyGwei
  | .ok feeData =>
    if jsTruthyInt feeData.maxFeePerGas && jsTruthyInt feeData.maxPriorityFeePerGas then
      .eip1559 (feeData.maxFeePerGas.getD 0) (feeData.maxPriorityFeePerGas.getD 0)
    else
      .legacy twentyGwei

/-- Model of `Web3Custom.checkNetwork` (claim.js lines 144-156): its argument is the
outcome of `provider.getNetwork()`, reduced to the reported chain id. Both a
transport failure and the wrong-network throw are caught by the surrounding
`catch` and rewrapped with the `Failed to connect to network:` text. -/
def checkNetwork (getNetworkR : Except String ℤ) : Except String Unit :=
  match getNetworkR with
  | .error e => .error ("Failed to connect to network: " ++ e)
  | .ok cid =>
    if cid ≠ CHAIN_ID then
      .error ("Failed to connect to network: Connected to wrong network. Expected chain ID "
        ++ toString CHAIN_ID ++ ", but got " ++ toString cid)
    else
      .ok ()

/-- Model of `TekoFinance.initialize` (claim.js lines 205-212): calls `checkNetwork`,
logs, and rethrows the same error on failure. -/
def tekoInit (getNetworkR : Except String ℤ) : Except String Unit :=
  checkNetwork getNetworkR

/-- A transaction request as built by `_requestFaucetToken`:
`{to, data, value: 0n, from}`. -/
structure Tx where
  toAddr : String
  data : String
  value : ℤ
  fromAddr : String
  deriving DecidableEq, Repr

/-- One call to `wallet.sendTransaction`: the request it was given together with
the `gasLimit` and `chainId` merged in by `executeTransaction`. -/
structure SubmittedTx where
  tx : Tx
  gasLimit : ℕ
  chainId : ℤ
  deriving DecidableEq, Repr

instance {ε α : Type} [DecidableEq ε] [DecidableEq α] : DecidableEq (Except ε α) := fun x y =>
  match x, y with
  | .ok a, .ok b =>
    if h : a = b then isTrue (by rw [h]) else isFalse (fun hc => h (Except.ok.inj hc))
  | .ok _, .error _ => isFalse (fun hc => Except.noConfusion hc)
  | .error _, .ok _ => isFalse (fun hc => Except.noConfusion hc)
  | .error e, .error f =>
    if h : e = f then isTrue (by rw [h]) else isFalse (fun hc => h (Except.error.inj hc))

/-- The remote node's behaviour for one attempt: the outcome of
`provider.estimateGas`, of `wallet.sendTransaction` (the transaction hash on
fulfilment), and of `txResponse.wait()` (the receipt's `status` field). -/
structure Env where
  estimateGasR : Except String ℕ
  sendR : Except String String
  waitStatus : Except String ℕ
  deriving DecidableEq, Repr

/-- Model of `Web3Custom.estimateGas` (claim.js lines 89-95): wraps a transport
failure's message. -/
def estimateGas (r : Except String ℕ) : Except String ℕ :=
  match r with
  | .error e => .error ("Failed to estimate gas: " ++ e)
  | .ok gas => .ok gas

/-- Model of `Web3Custom.executeTransaction` (claim.js lines 115-142). Returns the
function's result (`some hash` on a success receipt, `none` on a reverted
one, `Except.error` on a rethrown transport failure) paired with the list of
`sendTransaction` calls made. Estimation failure returns before any
submission. -/
def executeTransaction (env : Env) (txData : Tx) (chainId : ℤ) :
    Except String (Option String) × List SubmittedTx :=
  match estimateGas env.estimateGasR with
  | .error e => (.error e, [])
  | .ok gasLimit =>
    match env.sendR with
    | .error e => (.error e, [⟨txData, gasLimit, chainId⟩])
    | .ok hash =>
      match env.waitStatus with
      | .error e => (.error e, [⟨txData, gasLimit, chainId⟩])
      | .ok status =>
        if status = 1 then
          (.ok (some hash), [⟨txData, gasLimit, chainId⟩])
        else
          (.ok none, [⟨txData, gasLimit, chainId⟩])

/-- Lowercase hexadecimal digit for a value below 16 (digits then `a`-`f`). -/
def hexDigit (n : ℕ) : Char :=
  if n < 10 then Char.ofNat (48 + n) else Char.ofNat (87 + n)

/-- Two lowercase hex characters for one byte. -/
def byteHex (b : ℕ) : String :=
  String.mk [hexDigit (b / 16), hexDigit (b % 16)]

/-- Lowercase hex rendering of a byte list, two characters per byte. -/
def bytesHex : List ℕ → String
  | [] => ""
  | b :: bs => byteHex b ++ bytesHex bs

/-- The big-endian `k`-byte encoding of a natural number. -/
def natToBytesBE : ℕ → ℕ → List ℕ
  | 0, _ => []
  | k + 1, n => natToBytesBE k (n / 256) ++ [n % 256]

/-- The four bytes of the fixed mint selector `0x40c10f19`. -/
def mintSelector : List ℕ := [0x40, 0xc1, 0x0f, 0x19]

/-- The byte-level reading of the spec's payload description: the fixed
selector, then the 20-byte recipient address zero-padded (on the left) to a
32-byte slot, then the mint amount as a 32-byte big-endian integer. -/
def specMintPayload (addr : List ℕ) (amount : ℕ) : List ℕ :=
  mintSelector ++ List.replicate 12 0 ++ addr ++ natToBytesBE 32 amount

/-- The tkETH payload template of claim.js line 219, as a function of
`this.wallet.address.slice(2).toLowerCase()`. -/
def tkETHPayload (addrHex : String) : String :=
  "0x40c10f19000000000000000000000000" ++ addrHex ++
    "0000000000000000000000000000000000000000000000000de0b6b3a7640000"

/-- The tkUSDC payload template of claim.js line 224. -/
def tkUSDCPayload (addrHex : String) : String :=
  "0x40c10f19000000000000000000000000" ++ addrHex ++
    "0000000000000000000000000000000000000000000000000000000077359400"

/-- The tkWBTC payload template of claim.js line 229. -/
def tkWBTCPayload (addrHex : String) : String :=
  "0x40c10f19000000000000000000000000" ++ addrHex ++
    "00000000000000000000000000000000000000000000000000000000001e8480"

/-- The cUSD payload template of claim.js line 234. -/
def cUSDPayload (addrHex : String) : String :=
  "0x40c10f19000000000000000000000000" ++ addrHex ++
    "00000000000000000000000000000000000000000000003635c9adc5dea00000"

/-- One element of the `payloads` array built by `TekoFinance.faucet`. -/
structure PayloadEntry where
  token : String
  payload : String
  contract : String
  deriving DecidableEq, Repr

/-- The array `payloads` of `TekoFinance.faucet` (claim.js lines 216-237)
before shuffling, as a function of the lowercased recipient address hex.
`ethers.getAddress` applied to each checksummed literal returns it
unchanged. -/
def tekoPayloads (addrHex : String) : List PayloadEntry :=
  [⟨"tkETH", tkETHPayload addrHex, "0x176735870dc6C22B4EBFBf519DE2ce758de78d94"⟩,
   ⟨"tkUSDC", tkUSDCPayload addrHex, "0xFaf334e157175Ff676911AdcF0964D7f54F2C424"⟩,
   ⟨"tkWBTC", tkWBTCPayload addrHex, "0xF82ff0799448630eB56Ce747Db840a2E02Cde4D8"⟩,
   ⟨"cUSD", cUSDPayload addrHex, "0xE9b6e75C243B6100ffcb1c66e8f78F96FeeA727F"⟩]

/-- JavaScript truthiness of `txHash` in `_requestFaucetToken`: `null` and
the empty string are falsy. -/
def jsTruthyHash : Option String → Bool
  | none => false
  | some h => h != ""

/-- The inner closure `fn` of `TekoFinance._requestFaucetToken` (claim.js
lines 257-285) for one attempt: builds the request, runs
`executeTransaction` with `CHAIN_ID`, and maps the returned hash to `true`
and the `null` outcome to `false`; a throw propagates. -/
def faucetTokenFn (walletAddr : String) (entry : PayloadEntry) (env : Env) :
    Except String Bool × List SubmittedTx :=
  match executeTransaction env ⟨entry.contract, entry.payload, 0, walletAddr⟩ CHAIN_ID with
  | (.error e, subs) => (.error e, subs)
  | (.ok txHash, subs) => (.ok (jsTruthyHash txHash), subs)

/-- Model of `TekoFinance._requestFaucetToken` (claim.js lines 256-288): `fn` under
`retryLogic` with `maxAttempts = 3` and the configured pause range `[5, 10]`.
`envs a` is the node's behaviour on attempt `a`. -/
def requestFaucetToken (accountIndex walletAddr : String) (envs : ℕ → Env)
    (rand : ℕ → ℚ) (entry : PayloadEntry) : RetryOutcome Bool SubmittedTx :=
  retryLogic accountIndex (fun attempt => faucetTokenFn walletAddr entry (envs attempt))
    3 5 10 rand

/-- Whether one token operation ends in a throw (its retry budget exhausted
by transport errors), which is what aborts `faucet`'s loop. -/
def opFails (accountIndex walletAddr : String) (envs : ℕ → Env) (rand : ℕ → ℚ)
    (entry : PayloadEntry) : Bool :=
  match (requestFaucetToken accountIndex walletAddr envs rand entry).result with
  | some (.error _) => true
  | _ => false

/-- The loop `for (const payload of payloads)` body of `TekoFinance.faucet`
(claim.js lines 241-249) together with the surrounding `try`/`catch`:
returns the run's boolean result and all `sendTransaction` calls made.
`i` is the position in the shuffled order; `envs i` and `rand i` supply the
node behaviour and random draws for the operation at position `i`. The
awaited boolean of each `requestFaucetToken` is discarded; only a throw
(caught by the `catch`, which returns `false`) stops the loop. -/
def faucetLoop (accountIndex walletAddr : String) (envs : ℕ → ℕ → Env)
    (rand : ℕ → ℕ → ℚ) : List PayloadEntry → ℕ → Bool × List SubmittedTx
  | [], _ => (true, [])
  | entry :: rest, i =>
    let out := requestFaucetToken accountIndex walletAddr (envs i) (rand i) entry
    match out.result with
    | some (.error _) => (false, out.effects)
    | _ =>
      let r := faucetLoop accountIndex walletAddr envs rand rest (i + 1)
      (r.1, out.effects ++ r.2)

/-- Model of `TekoFinance.faucet` (claim.js lines 214-254), parameterized by the
shuffled payload order (the in-place `payloads.sort(() => Math.random() -
0.5)` yields some permutation of `tekoPayloads`). -/
def faucet (accountIndex walletAddr : String) (envs : ℕ → ℕ → Env)
    (rand : ℕ → ℕ → ℚ) (shuffled : List PayloadEntry) : Bool × List SubmittedTx :=
  faucetLoop accountIndex walletAddr envs rand shuffled 0

/-- The entry at position `i` of a run's shuffled order (a harmless dummy
entry out of range, only ever used at in-range positions). -/
def entryAt (l : List PayloadEntry) (i : ℕ) : PayloadEntry :=
  l.getD i ⟨"", "", ""⟩

/-- The transaction-relevant control flow of `main`/`mainMenu`: `initialize`
(the network check) runs before any faucet claim, and on its failure the
program stops without submitting anything. Returns every `sendTransaction`
call the program makes. -/
def runProgram (getNetworkR : Except String ℤ) (accountIndex walletAddr : String)
    (envs : ℕ → ℕ → Env) (rand : ℕ → ℕ → ℚ) (shuffled : List PayloadEntry) :
    List SubmittedTx :=
  match tekoInit getNetworkR with
  | .error _ => []
  | .ok _ => (faucet accountIndex walletAddr envs rand shuffled).2

/-- Unfolding: a successful attempt returns at once. -/
theorem retryAux_ok {α σ : Type} (idx : String) (op : ℕ → Except String α × List σ)
    (rand : ℕ → ℚ) (lo hi : ℤ) (fuel a : ℕ) (v : α) (h : (op a).1 = Except.ok v) :
    retryAux idx op rand lo hi (fuel + 1) a =
      ⟨some (Except.ok v), 1, [], (op a).2, []⟩ := by
  cases ho : op a with
  | mk r eff =>
    rw [ho] at h
    simp only at h
    subst h
    simp [retryAux, ho]

/-- Unfolding: a failing attempt with no fuel left rethrows and logs. -/
theorem retryAux_err_last {α σ : Type} (idx : String) (op : ℕ → Except String α × List σ)
    (rand : ℕ → ℚ) (lo hi : ℤ) (a : ℕ) (e : String) (h : (op a).1 = Except.error e) :
    retryAux idx op rand lo hi 1 a =
      ⟨some (Except.error e), 1, [], (op a).2,
        [⟨.error, idx ++ " | Max attempts reached: " ++ e⟩]⟩ := by
  cases ho : op a with
  | mk r eff =>
    rw [ho] at h
    simp only at h
    subst h
    simp [retryAux, ho]

/-- Unfolding: a failing attempt with fuel remaining sleeps and retries. -/
theorem retryAux_err_cont {α σ : Type} (idx : String) (op : ℕ → Except String α × List σ)
    (rand : ℕ → ℚ) (lo hi : ℤ) (fuel a : ℕ) (e : String) (h : (op a).1 = Except.error e) :
    retryAux idx op rand lo hi (fuel + 2) a =
      ⟨(retryAux idx op rand lo hi (fuel + 1) (a + 1)).result,
        (retryAux idx op rand lo hi (fuel + 1) (a + 1)).attempts + 1,
        pauseDraw lo hi (rand a) :: (retryAux idx op rand lo hi (fuel + 1) (a + 1)).sleeps,
        (op a).2 ++ (retryAux idx op rand lo hi (fuel + 1) (a + 1)).effects,
        ⟨.warn, idx ++ " | Attempt " ++ toString a ++ " failed: " ++ e ++
          ". Retrying in " ++ toString (pauseDraw lo hi (rand a)) ++ "s..."⟩ ::
          (retryAux idx op rand lo hi (fuel + 1) (a + 1)).logs⟩ := by
  cases ho : op a with
  | mk r eff =>
    rw [ho] at h
    simp only at h
    subst h
    simp [retryAux, ho]

/-- The backoff pause lies in the inclusive range `[lo, hi]` whenever the
random draw lies in `[0, 1)` and the range is nonempty. -/
theorem pauseDraw_mem (lo hi : ℤ) (r : ℚ) (hlohi : lo ≤ hi) (h0 : 0 ≤ r) (h1 : r < 1) :
    lo ≤ pauseDraw lo hi r ∧ pauseDraw lo hi r ≤ hi := by
  have hspan : (0 : ℚ) < (hi : ℚ) - (lo : ℚ) + 1 := by
    have : (lo : ℚ) ≤ (hi : ℚ) := by exact_mod_cast hlohi
    linarith
  have hfloor : pauseDraw lo hi r = ⌊r * ((hi : ℚ) - (lo : ℚ) + 1)⌋ + lo := by
    unfold pauseDraw
    rw [Int.floor_add_int]
  constructor
  · rw [hfloor]
    have : (0 : ℤ) ≤ ⌊r * ((hi : ℚ) - (lo : ℚ) + 1)⌋ :=
      Int.floor_nonneg.mpr (mul_nonneg h0 (le_of_lt hspan))
    omega
  · rw [hfloor]
    have hlt : r * ((hi : ℚ) - (lo : ℚ) + 1) < ((hi - lo + 1 : ℤ) : ℚ) := by
      push_cast
      calc r * ((hi : ℚ) - (lo : ℚ) + 1) < 1 * ((hi : ℚ) - (lo : ℚ) + 1) :=
            mul_lt_mul_of_pos_right h1 hspan
        _ = (hi : ℚ) - (lo : ℚ) + 1 := one_mul _
    have : ⌊r * ((hi : ℚ) - (lo : ℚ) + 1)⌋ < hi - lo + 1 := Int.floor_lt.mpr hlt
    omega

/-- An operation failing on attempts `a, …, a + k - 1` and succeeding on
attempt `a + k` (with `k < fuel`) makes `retryAux` return the success value
after exactly `k + 1` invocations, with one backoff sleep per failure. -/
theorem retryAux_fail_then_succeed {α σ : Type} (idx : String)
    (op : ℕ → Except String α × List σ) (rand : ℕ → ℚ) (lo hi : ℤ) (v : α) :
    ∀ (k fuel a : ℕ), k < fuel →
      (∀ i, a ≤ i → i < a + k → ∃ e, (op i).1 = Except.error e) →
      (op (a + k)).1 = Except.ok v →
      (retryAux idx op rand lo hi fuel a).result = some (Except.ok v) ∧
      (retryAux idx op rand lo hi fuel a).attempts = k + 1 ∧
      (retryAux idx op rand lo hi fuel a).sleeps =
        (List.range k).map (fun j => pauseDraw lo hi (rand (a + j))) := by
  intro k
  induction k with
  | zero =>
    intro fuel a hk hfail hsucc
    obtain ⟨f, rfl⟩ : ∃ f, fuel = f + 1 := ⟨fuel - 1, by omega⟩
    rw [Nat.add_zero] at hsucc
    rw [retryAux_ok idx op rand lo hi f a v hsucc]
    simp
  | succ k ih =>
    intro fuel a hk hfail hsucc
    obtain ⟨e, he⟩ : ∃ e, (op a).1 = Except.error e := hfail a (le_refl a) (by omega)
    obtain ⟨f, rfl⟩ : ∃ f, fuel = f + 2 := ⟨fuel - 2, by omega⟩
    rw [retryAux_err_cont idx op rand lo hi f a e he]
    have hfail' : ∀ i, a + 1 ≤ i → i < a + 1 + k → ∃ e, (op i).1 = Except.error e := by
      intro i h1 h2
      exact hfail i (by omega) (by omega)
    have hsucc' : (op (a + 1 + k)).1 = Except.ok v := by
      have : a + 1 + k = a + (k + 1) := by omega
      rw [this]
      exact hsucc
    obtain ⟨ih1, ih2, ih3⟩ := ih (f + 1) (a + 1) (by omega) hfail' hsucc'
    refine ⟨ih1, by rw [ih2], ?_⟩
    have hfun : (fun j => pauseDraw lo hi (rand (a + 1 + j))) =
        ((fun j => pauseDraw lo hi (rand (a + j))) ∘ Nat.succ) := by
      funext j
      show pauseDraw lo hi (rand (a + 1 + j)) = pauseDraw lo hi (rand (a + Nat.succ j))
      have h9 : a + 1 + j = a + Nat.succ j := by omega
      rw [h9]
    rw [ih3, List.range_succ_eq_map, List.map_cons, List.map_map, hfun]
    simp

/-- An operation failing on every attempt exhausts all the fuel: the result
is the last attempt's error, every unit of fuel is an invocation, and the
exhaustion log line carries the label and the last message. -/
theorem retryAux_all_fail {α σ : Type} (idx : String)
    (op : ℕ → Except String α × List σ) (rand : ℕ → ℚ) (lo hi : ℤ) (e : ℕ → String)
    (h : ∀ i, (op i).1 = Except.error (e i)) :
    ∀ (fuel a : ℕ),
      (retryAux idx op rand lo hi (fuel + 1) a).result = some (Except.error (e (a + fuel))) ∧
      (retryAux idx op rand lo hi (fuel + 1) a).attempts = fuel + 1 ∧
      ⟨LogLevel.error, idx ++ " | Max attempts reached: " ++ e (a + fuel)⟩ ∈
        (retryAux idx op rand lo hi (fuel + 1) a).logs := by
  intro fuel
  induction fuel with
  | zero =>
    intro a
    rw [retryAux_err_last idx op rand lo hi a (e a) (h a)]
    simp
  | succ f ih =>
    intro a
    rw [retryAux_err_cont idx op rand lo hi f a (e a) (h a)]
    obtain ⟨ih1, ih2, ih3⟩ := ih (a + 1)
    have harg : a + 1 + f = a + (f + 1) := by omega
    rw [harg] at ih1 ih3
    refine ⟨ih1, by rw [ih2], ?_⟩
    exact List.mem_cons_of_mem _ ih3

/-- C3: for every `maxAttempts = n` and every operation that fails exactly
`k < n` times and then succeeds, `retryLogic` returns the operation's success
value, invokes the operation exactly `k + 1` times, and performs exactly `k`
backoff sleeps, each an integer duration in the inclusive range `[lo, hi]`
seconds (given a nonempty range and random draws in `[0, 1)`). -/
theorem retry_fail_k_then_succeed {α σ : Type} (idx : String)
    (op : ℕ → Except String α × List σ) (rand : ℕ → ℚ) (lo hi : ℤ) (n k : ℕ) (v : α)
    (hk : k < n)
    (hfail : ∀ i, 1 ≤ i → i ≤ k → ∃ e, (op i).1 = Except.error e)
    (hsucc : (op (k + 1)).1 = Except.ok v)
    (hlohi : lo ≤ hi) (hrand : ∀ i, 0 ≤ rand i ∧ rand i < 1) :
    (retryLogic idx op n lo hi rand).result = some (Except.ok v) ∧
    (retryLogic idx op n lo hi rand).attempts = k + 1 ∧
    (retryLogic idx op n lo hi rand).sleeps.length = k ∧
    ∀ s ∈ (retryLogic idx op n lo hi rand).sleeps, lo ≤ s ∧ s ≤ hi := by
  have hfail' : ∀ i, 1 ≤ i → i < 1 + k → ∃ e, (op i).1 = Except.error e := by
    intro i h1 h2
    exact hfail i h1 (by omega)
  have hsucc' : (op (1 + k)).1 = Except.ok v := by
    rw [Nat.add_comm 1 k]
    exact hsucc
  obtain ⟨h1, h2, h3⟩ :=
    retryAux_fail_then_succeed idx op rand lo hi v k n 1 hk hfail' hsucc'
  refine ⟨h1, h2, ?_, ?_⟩
  · rw [retryLogic, h3, List.length_map, List.length_range]
  · intro s hs
    rw [retryLogic, h3] at hs
    obtain ⟨j, _, rfl⟩ := List.mem_map.mp hs
    exact pauseDraw_mem lo hi (rand (1 + j)) hlohi (hrand (1 + j)).1 (hrand (1 + j)).2

/-- Witness for C3: an operation failing once then succeeding, under
`maxAttempts = 3` and pause range `[5, 10]`. -/
theorem retry_fail_k_then_succeed_witness :
    (retryLogic "1"
        (fun i => (if i = 1 then Except.error "boom" else Except.ok true, ([] : List Unit)))
        3 5 10 (fun _ => 0)).result = some (Except.ok true) ∧
    (retryLogic "1"
        (fun i => (if i = 1 then Except.error "boom" else Except.ok true, ([] : List Unit)))
        3 5 10 (fun _ => 0)).attempts = 2 ∧
    (retryLogic "1"
        (fun i => (if i = 1 then Except.error "boom" else Except.ok true, ([] : List Unit)))
        3 5 10 (fun _ => 0)).sleeps.length = 1 ∧
    ∀ s ∈ (retryLogic "1"
        (fun i => (if i = 1 then Except.error "boom" else Except.ok true, ([] : List Unit)))
        3 5 10 (fun _ => 0)).sleeps, 5 ≤ s ∧ s ≤ 10 :=
  retry_fail_k_then_succeed "1"
    (fun i => (if i = 1 then Except.error "boom" else Except.ok true, ([] : List Unit)))
    (fun _ => 0) 5 10 3 1 true (by omega)
    (fun i h1 h2 => ⟨"boom", by
      have : i = 1 := by omega
      subst this
      rfl⟩)
    (by rfl) (by omega) (fun i => ⟨le_refl 0, by norm_num⟩)

/-- C4: for every `maxAttempts = n ≥ 1` and every operation that fails on
every invocation, `retryLogic` invokes the operation exactly `n` times and
then propagates the last attempt's error, emitting the error-level log line
that annotates the last message with the account label; nothing is retried
after the `n`-th attempt. -/
theorem retry_always_fail {α σ : Type} (idx : String)
    (op : ℕ → Except String α × List σ) (rand : ℕ → ℚ) (lo hi : ℤ) (n : ℕ) (hn : 1 ≤ n)
    (e : ℕ → String) (h : ∀ i, (op i).1 = Except.error (e i)) :
    (retryLogic idx op n lo hi rand).result = some (Except.error (e n)) ∧
    (retryLogic idx op n lo hi rand).attempts = n ∧
    ⟨LogLevel.error, idx ++ " | Max attempts reached: " ++ e n⟩ ∈
      (retryLogic idx op n lo hi rand).logs := by
  obtain ⟨f, rfl⟩ : ∃ f, n = f + 1 := ⟨n - 1, by omega⟩
  have harg : 1 + f = f + 1 := by omega
  obtain ⟨h1, h2, h3⟩ := retryAux_all_fail idx op rand lo hi e h f 1
  rw [harg] at h1 h3
  exact ⟨h1, h2, h3⟩

/-- Witness for C4: an operation that always fails with message `"boom"`,
under `maxAttempts = 2`. -/
theorem retry_always_fail_witness :
    (retryLogic "1" (fun i => ((Except.error "boom" : Except String Bool), ([] : List Unit)))
        2 5 10 (fun _ => 0)).result = some (Except.error "boom") ∧
    (retryLogic "1" (fun i => ((Except.error "boom" : Except String Bool), ([] : List Unit)))
        2 5 10 (fun _ => 0)).attempts = 2 ∧
    (⟨LogLevel.error, "1" ++ " | Max attempts reached: " ++ "boom"⟩ : LogEvent) ∈
      (retryLogic "1" (fun i => ((Except.error "boom" : Except String Bool), ([] : List Unit)))
        2 5 10 (fun _ => 0)).logs :=
  retry_always_fail "1"
    (fun i => ((Except.error "boom" : Except String Bool), ([] : List Unit)))
    (fun _ => 0) 5 10 2 (by omega) (fun _ => "boom") (fun i => rfl)

theorem bytesHex_append (a b : List ℕ) : bytesHex (a ++ b) = bytesHex a ++ bytesHex b := by
  induction a with
  | nil => simp [bytesHex]
  | cons h t ih => simp [bytesHex, ih, String.append_assoc]

/-- C7: for every valid 20-byte recipient address, each of the four mint
payload templates of `TekoFinance.faucet` equals, byte for byte, the fixed
selector `0x40c10f19` followed by the recipient address zero-padded to a
32-byte slot followed by that token's fixed mint amount as a 32-byte
big-endian integer (tkETH `10^18`, tkUSDC `2·10^9`, tkWBTC `2·10^6`, cUSD
`10^21`). -/
theorem mint_payload_byte_exact (addr : List ℕ) (hlen : addr.length = 20)
    (hbytes : ∀ b ∈ addr, b < 256) :
    tkETHPayload (bytesHex addr) = "0x" ++ bytesHex (specMintPayload addr (10 ^ 18)) ∧
    tkUSDCPayload (bytesHex addr) = "0x" ++ bytesHex (specMintPayload addr (2 * 10 ^ 9)) ∧
    tkWBTCPayload (bytesHex addr) = "0x" ++ bytesHex (specMintPayload addr (2 * 10 ^ 6)) ∧
    cUSDPayload (bytesHex addr) = "0x" ++ bytesHex (specMintPayload addr (10 ^ 21)) := by
  refine ⟨?_, ?_, ?_, ?_⟩
  · unfold tkETHPayload specMintPayload
    rw [bytesHex_append, bytesHex_append, bytesHex_append]
    rw [show bytesHex mintSelector = "40c10f19" from by decide]
    rw [show bytesHex (List.replicate 12 0) = "000000000000000000000000" from by decide]
    rw [show bytesHex (natToBytesBE 32 (10 ^ 18)) =
      "0000000000000000000000000000000000000000000000000de0b6b3a7640000" from by decide]
    rw [← String.append_assoc, ← String.append_assoc]
    rw [show ("0x" : String) ++ ("40c10f19" ++ "000000000000000000000000") =
      "0x40c10f19000000000000000000000000" from by decide]
  · unfold tkUSDCPayload specMintPayload
    rw [bytesHex_append, bytesHex_append, bytesHex_append]
    rw [show bytesHex mintSelector = "40c10f19" from by decide]
    rw [show bytesHex (List.replicate 12 0) = "000000000000000000000000" from by decide]
    rw [show bytesHex (natToBytesBE 32 (2 * 10 ^ 9)) =
      "0000000000000000000000000000000000000000000000000000000077359400" from by decide]
    rw [← String.append_assoc, ← String.append_assoc]
    rw [show ("0x" : String) ++ ("40c10f19" ++ "000000000000000000000000") =
      "0x40c10f19000000000000000000000000" from by decide]
  · unfold tkWBTCPayload specMintPayload
    rw [bytesHex_append, bytesHex_append, bytesHex_append]
    rw [show bytesHex mintSelector = "40c10f19" from by decide]
    rw [show bytesHex (List.replicate 12 0) = "000000000000000000000000" from by decide]
    rw [show bytesHex (natToBytesBE 32 (2 * 10 ^ 6)) =
      "00000000000000000000000000000000000000000000000000000000001e8480" from by decide]
    rw [← String.append_assoc, ← String.append_assoc]
    rw [show ("0x" : String) ++ ("40c10f19" ++ "000000000000000000000000") =
      "0x40c10f19000000000000000000000000" from by decide]
  · unfold cUSDPayload specMintPayload
    rw [bytesHex_append, bytesHex_append, bytesHex_append]
    rw [show bytesHex mintSelector = "40c10f19" from by decide]
    rw [show bytesHex (List.replicate 12 0) = "000000000000000000000000" from by decide]
    rw [show bytesHex (natToBytesBE 32 (10 ^ 21)) =
      "00000000000000000000000000000000000000000000003635c9adc5dea00000" from by decide]
    rw [← String.append_assoc, ← String.append_assoc]
    rw [show ("0x" : String) ++ ("40c10f19" ++ "000000000000000000000000") =
      "0x40c10f19000000000000000000000000" from by decide]

/-- Witness for C7 at the spec's example address `0xaaaa…aaaa`. -/
theorem mint_payload_byte_exact_witness :
    tkETHPayload (bytesHex (List.replicate 20 0xaa)) =
      "0x" ++ bytesHex (specMintPayload (List.replicate 20 0xaa) (10 ^ 18)) ∧
    tkUSDCPayload (bytesHex (List.replicate 20 0xaa)) =
      "0x" ++ bytesHex (specMintPayload (List.replicate 20 0xaa) (2 * 10 ^ 9)) ∧
    tkWBTCPayload (bytesHex (List.replicate 20 0xaa)) =
      "0x" ++ bytesHex (specMintPayload (List.replicate 20 0xaa) (2 * 10 ^ 6)) ∧
    cUSDPayload (bytesHex (List.replicate 20 0xaa)) =
      "0x" ++ bytesHex (specMintPayload (List.replicate 20 0xaa) (10 ^ 21)) :=
  mint_payload_byte_exact (List.replicate 20 0xaa) (by decide) (by decide)

/-- C5 counterexample: a fee-data answer in which both EIP-1559 fields are
present but `maxFeePerGas` is `0n` (falsy in JavaScript) is routed to the
legacy 20 gwei fallback, not to the EIP-1559 pair, so "present" alone does
not suffice. -/
theorem gasParams_present_zero_cex :
    (FeeData.mk (some 0) (some 1)).maxFeePerGas.isSome = true ∧
    (FeeData.mk (some 0) (some 1)).maxPriorityFeePerGas.isSome = true ∧
    getGasParams (.ok ⟨some 0, some 1⟩) = .legacy 20000000000 ∧
    getGasParams (.ok ⟨some 0, some 1⟩) ≠ .eip1559 0 1 := by
  refine ⟨rfl, rfl, rfl, ?_⟩
  decide

/-- C5 (amended): `getGasParams` returns the EIP-1559 pair when both fields
are present and nonzero (truthy), and returns the fixed 20 gwei legacy gas
price in every other case, including when the fee-data query itself fails;
it is a total function, so it never propagates an error to its caller. -/
theorem gasParams_amended :
    (∀ a b : ℤ, a ≠ 0 → b ≠ 0 →
      getGasParams (.ok ⟨some a, some b⟩) = .eip1559 a b) ∧
    (∀ fd : FeeData,
      (jsTruthyInt fd.maxFeePerGas && jsTruthyInt fd.maxPriorityFeePerGas) = false →
      getGasParams (.ok fd) = .legacy twentyGwei) ∧
    (∀ e : String, getGasParams (.error e) = .legacy twentyGwei) := by
  refine ⟨?_, ?_, ?_⟩
  · intro a b ha hb
    simp [getGasParams, jsTruthyInt, ha, hb]
  · intro fd h
    simp [getGasParams, h]
  · intro e
    rfl

/-- Witness for C5 (amended): a truthy pair, a zero field, and a failed
query. -/
theorem gasParams_amended_witness :
    getGasParams (.ok ⟨some 5, some 2⟩) = .eip1559 5 2 ∧
    getGasParams (.ok ⟨some 0, some 2⟩) = .legacy twentyGwei ∧
    getGasParams (.error "boom") = .legacy twentyGwei :=
  ⟨gasParams_amended.1 5 2 (by decide) (by decide),
   gasParams_amended.2.1 ⟨some 0, some 2⟩ (by decide),
   gasParams_amended.2.2 "boom"⟩

/-- C6: `checkNetwork` succeeds exactly when the queried id equals 6342; any
other id yields the network-mismatch error, and a program whose
initialization failed submits no transaction at all. -/
theorem checkNetwork_iff_6342 :
    (∀ cid : ℤ, checkNetwork (.ok cid) = .ok () ↔ cid = 6342) ∧
    (∀ cid : ℤ, cid ≠ 6342 →
      checkNetwork (.ok cid) =
        .error ("Failed to connect to network: Connected to wrong network. Expected chain ID "
          ++ toString CHAIN_ID ++ ", but got " ++ toString cid)) ∧
    (∀ (gR : Except String ℤ) (e idx wa : String) (envs : ℕ → ℕ → Env)
        (rand : ℕ → ℕ → ℚ) (shuffled : List PayloadEntry),
      tekoInit gR = .error e →
      runProgram gR idx wa envs rand shuffled = []) := by
  refine ⟨?_, ?_, ?_⟩
  · intro cid
    constructor
    · intro h
      by_contra hne
      simp [checkNetwork, CHAIN_ID, hne] at h
    · intro h
      subst h
      rfl
  · intro cid hne
    simp [checkNetwork, CHAIN_ID, hne]
  · intro gR e idx wa envs rand shuffled h
    simp [runProgram, h]

/-- Witness for C6: chain id 1 is rejected with the mismatch message and the
program makes no submission. -/
theorem checkNetwork_iff_6342_witness :
    (checkNetwork (.ok 6342) = .ok () ↔ (6342 : ℤ) = 6342) ∧
    checkNetwork (.ok 1) =
      .error ("Failed to connect to network: Connected to wrong network. Expected chain ID "
        ++ toString CHAIN_ID ++ ", but got " ++ toString (1 : ℤ)) ∧
    runProgram (.ok 1) "1" "0xW" (fun _ _ => ⟨.ok 9, .ok "h", .ok 1⟩) (fun _ _ => 0)
      (tekoPayloads "aa") = [] :=
  ⟨checkNetwork_iff_6342.1 6342,
   checkNetwork_iff_6342.2.1 1 (by decide),
   checkNetwork_iff_6342.2.2 (.ok 1)
     ("Failed to connect to network: Connected to wrong network. Expected chain ID "
       ++ toString CHAIN_ID ++ ", but got " ++ toString (1 : ℤ))
     "1" "0xW" (fun _ _ => ⟨.ok 9, .ok "h", .ok 1⟩) (fun _ _ => 0) (tekoPayloads "aa")
     (by decide)⟩

/-- C8: `executeTransaction` resolves the gas limit first and a failed
estimation propagates (wrapped) without any submission; a submission whose
receipt has status 1 returns the transaction hash; a receipt with any other
status returns the `null` outcome instead of throwing. -/
theorem executeTransaction_cases (tx : Tx) (cid : ℤ) (e : String)
    (sendR : Except String String) (waitR : Except String ℕ)
    (g : ℕ) (h : String) (s : ℕ) (hs : s ≠ 1) :
    executeTransaction ⟨.error e, sendR, waitR⟩ tx cid =
      (.error ("Failed to estimate gas: " ++ e), []) ∧
    executeTransaction ⟨.ok g, .ok h, .ok 1⟩ tx cid = (.ok (some h), [⟨tx, g, cid⟩]) ∧
    executeTransaction ⟨.ok g, .ok h, .ok s⟩ tx cid = (.ok none, [⟨tx, g, cid⟩]) := by
  refine ⟨rfl, rfl, ?_⟩
  simp [executeTransaction, estimateGas, hs]

/-- Witness for C8 at concrete requests and node answers. -/
theorem executeTransaction_cases_witness :
    executeTransaction ⟨.error "down", .ok "0xh", .ok 1⟩ ⟨"c", "p", 0, "w"⟩ CHAIN_ID =
      (.error ("Failed to estimate gas: " ++ "down"), []) ∧
    executeTransaction ⟨.ok 21000, .ok "0xh", .ok 1⟩ ⟨"c", "p", 0, "w"⟩ CHAIN_ID =
      (.ok (some "0xh"), [⟨⟨"c", "p", 0, "w"⟩, 21000, CHAIN_ID⟩]) ∧
    executeTransaction ⟨.ok 21000, .ok "0xh", .ok 0⟩ ⟨"c", "p", 0, "w"⟩ CHAIN_ID =
      (.ok none, [⟨⟨"c", "p", 0, "w"⟩, 21000, CHAIN_ID⟩]) :=
  executeTransaction_cases ⟨"c", "p", 0, "w"⟩ CHAIN_ID "down" (.ok "0xh") (.ok 1)
    21000 "0xh" 0 (by decide)

/-- The submissions made by one attempt of `fn` are exactly those of the
underlying `executeTransaction` call. -/
theorem faucetTokenFn_effects (wa : String) (entry : PayloadEntry) (env : Env) :
    (faucetTokenFn wa entry env).2 =
      (executeTransaction env ⟨entry.contract, entry.payload, 0, wa⟩ CHAIN_ID).2 := by
  unfold faucetTokenFn
  cases h : executeTransaction env ⟨entry.contract, entry.payload, 0, wa⟩ CHAIN_ID with
  | mk r subs =>
    cases r <;> rfl

/-- A first attempt whose transaction is submitted, confirmed, and reverted
(receipt status other than 1) makes `_requestFaucetToken` return `false`
immediately: one attempt, no sleeps, one submission, no retry log. -/
theorem requestFaucetToken_revert (idx wa : String) (envs : ℕ → Env) (rand : ℕ → ℚ)
    (entry : PayloadEntry) (g : ℕ) (h : String) (s : ℕ) (hs : s ≠ 1)
    (henv : envs 1 = ⟨.ok g, .ok h, .ok s⟩) :
    requestFaucetToken idx wa envs rand entry =
      ⟨some (.ok false), 1, [],
        [⟨⟨entry.contract, entry.payload, 0, wa⟩, g, CHAIN_ID⟩], []⟩ := by
  have hop : ((fun attempt => faucetTokenFn wa entry (envs attempt)) 1).1 =
      Except.ok false := by
    simp only
    rw [henv]
    simp [faucetTokenFn, executeTransaction, estimateGas, hs, jsTruthyHash]
  have heff : ((fun attempt => faucetTokenFn wa entry (envs attempt)) 1).2 =
      [⟨⟨entry.contract, entry.payload, 0, wa⟩, g, CHAIN_ID⟩] := by
    simp only
    rw [henv]
    simp [faucetTokenFn, executeTransaction, estimateGas, hs]
  unfold requestFaucetToken retryLogic
  rw [show (3 : ℕ) = 2 + 1 from rfl]
  rw [retryAux_ok idx _ rand 5 10 2 1 false hop, heff]

/-- Head of a shuffled order. -/
theorem entryAt_cons_zero (e : PayloadEntry) (l : List PayloadEntry) : entryAt (e :: l) 0 = e := rfl

/-- Tail positions of a shuffled order. -/
theorem entryAt_cons_succ (e : PayloadEntry) (l : List PayloadEntry) (k : ℕ) :
    entryAt (e :: l) (k + 1) = entryAt l k := rfl

/-- A throw out of the head operation aborts the loop with `false` and only
the head operation's submissions. -/
theorem faucetLoop_cons_fail (idx wa : String) (envs : ℕ → ℕ → Env) (rand : ℕ → ℕ → ℚ)
    (entry : PayloadEntry) (rest : List PayloadEntry) (i0 : ℕ) (e : String)
    (h : (requestFaucetToken idx wa (envs i0) (rand i0) entry).result = some (Except.error e)) :
    faucetLoop idx wa envs rand (entry :: rest) i0 =
      (false, (requestFaucetToken idx wa (envs i0) (rand i0) entry).effects) := by
  simp only [faucetLoop]
  rw [h]

/-- An `undefined` result from the head operation lets the loop continue. -/
theorem faucetLoop_cons_none (idx wa : String) (envs : ℕ → ℕ → Env) (rand : ℕ → ℕ → ℚ)
    (entry : PayloadEntry) (rest : List PayloadEntry) (i0 : ℕ)
    (h : (requestFaucetToken idx wa (envs i0) (rand i0) entry).result = none) :
    faucetLoop idx wa envs rand (entry :: rest) i0 =
      ((faucetLoop idx wa envs rand rest (i0 + 1)).1,
        (requestFaucetToken idx wa (envs i0) (rand i0) entry).effects ++
          (faucetLoop idx wa envs rand rest (i0 + 1)).2) := by
  simp only [faucetLoop]
  rw [h]

/-- A boolean result from the head operation (whatever its value) lets the
loop continue, accumulating the head's submissions. -/
theorem faucetLoop_cons_ok (idx wa : String) (envs : ℕ → ℕ → Env) (rand : ℕ → ℕ → ℚ)
    (entry : PayloadEntry) (rest : List PayloadEntry) (i0 : ℕ) (b : Bool)
    (h : (requestFaucetToken idx wa (envs i0) (rand i0) entry).result = some (Except.ok b)) :
    faucetLoop idx wa envs rand (entry :: rest) i0 =
      ((faucetLoop idx wa envs rand rest (i0 + 1)).1,
        (requestFaucetToken idx wa (envs i0) (rand i0) entry).effects ++
          (faucetLoop idx wa envs rand rest (i0 + 1)).2) := by
  simp only [faucetLoop]
  rw [h]

/-- A failing operation is one whose `retryLogic` run ended in a throw. -/
theorem opFails_eq_true (idx wa : String) (env : ℕ → Env) (rand : ℕ → ℚ)
    (entry : PayloadEntry) (h : opFails idx wa env rand entry = true) :
    ∃ e, (requestFaucetToken idx wa env rand entry).result = some (Except.error e) := by
  unfold opFails at h
  cases hres : (requestFaucetToken idx wa env rand entry).result with
  | none => rw [hres] at h; simp at h
  | some r =>
    cases r with
    | error e => exact ⟨e, rfl⟩
    | ok v => rw [hres] at h; simp at h

/-- A non-failing head operation lets the loop continue. -/
theorem faucetLoop_cons_pass (idx wa : String) (envs : ℕ → ℕ → Env) (rand : ℕ → ℕ → ℚ)
    (entry : PayloadEntry) (rest : List PayloadEntry) (i0 : ℕ)
    (h : opFails idx wa (envs i0) (rand i0) entry = false) :
    faucetLoop idx wa envs rand (entry :: rest) i0 =
      ((faucetLoop idx wa envs rand rest (i0 + 1)).1,
        (requestFaucetToken idx wa (envs i0) (rand i0) entry).effects ++
          (faucetLoop idx wa envs rand rest (i0 + 1)).2) := by
  cases hres : (requestFaucetToken idx wa (envs i0) (rand i0) entry).result with
  | none => exact faucetLoop_cons_none idx wa envs rand entry rest i0 hres
  | some r =>
    cases r with
    | error e => simp [opFails, hres] at h
    | ok b => exact faucetLoop_cons_ok idx wa envs rand entry rest i0 b hres

/-- The loop returns `true` exactly when no operation (at any position of
the remaining order) ends in a throw. -/
theorem faucetLoop_true_iff (idx wa : String) (envs : ℕ → ℕ → Env) (rand : ℕ → ℕ → ℚ) :
    ∀ (l : List PayloadEntry) (i0 : ℕ),
      ((faucetLoop idx wa envs rand l i0).1 = true ↔
        ∀ k, k < l.length →
          opFails idx wa (envs (i0 + k)) (rand (i0 + k)) (entryAt l k) = false) := by
  intro l
  induction l with
  | nil =>
    intro i0
    simp [faucetLoop]
  | cons entry rest ih =>
    intro i0
    cases hf : opFails idx wa (envs i0) (rand i0) entry with
    | true =>
      obtain ⟨e, hres⟩ := opFails_eq_true idx wa (envs i0) (rand i0) entry hf
      rw [faucetLoop_cons_fail idx wa envs rand entry rest i0 e hres]
      constructor
      · intro hfalse
        exact absurd hfalse (by simp)
      · intro hall
        have h0 := hall 0 (by simp)
        rw [Nat.add_zero, entryAt_cons_zero] at h0
        rw [hf] at h0
        exact absurd h0 (by simp)
    | false =>
      rw [faucetLoop_cons_pass idx wa envs rand entry rest i0 hf]
      constructor
      · intro htrue k hk
        cases k with
        | zero =>
          rw [Nat.add_zero, entryAt_cons_zero]
          exact hf
        | succ k' =>
          have hk' : k' < rest.length := by simpa using hk
          have := (ih (i0 + 1)).mp (by simpa using htrue) k' hk'
          rw [show i0 + (k' + 1) = i0 + 1 + k' from by omega, entryAt_cons_succ]
          exact this
      · intro hall
        have : (faucetLoop idx wa envs rand rest (i0 + 1)).1 = true := by
          apply (ih (i0 + 1)).mpr
          intro k hk
          have := hall (k + 1) (by simpa using hk)
          rw [show i0 + (k + 1) = i0 + 1 + k from by omega, entryAt_cons_succ] at this
          exact this
        simpa using this

/-- If the operation at relative position `j` is the first to end in a
throw, the loop returns `false` and its submissions are exactly those of the
operations at positions `0, …, j`: later operations are never attempted. -/
theorem faucetLoop_abort (idx wa : String) (envs : ℕ → ℕ → Env) (rand : ℕ → ℕ → ℚ) :
    ∀ (l : List PayloadEntry) (i0 j : ℕ), j < l.length →
      opFails idx wa (envs (i0 + j)) (rand (i0 + j)) (entryAt l j) = true →
      (∀ i, i < j → opFails idx wa (envs (i0 + i)) (rand (i0 + i)) (entryAt l i) = false) →
      (faucetLoop idx wa envs rand l i0).1 = false ∧
      (faucetLoop idx wa envs rand l i0).2 =
        ((List.range (j + 1)).map (fun i =>
          (requestFaucetToken idx wa (envs (i0 + i)) (rand (i0 + i))
            (entryAt l i)).effects)).flatten := by
  intro l
  induction l with
  | nil =>
    intro i0 j hj
    exact absurd hj (by simp)
  | cons entry rest ih =>
    intro i0 j hj hfail hok
    cases j with
    | zero =>
      rw [Nat.add_zero, entryAt_cons_zero] at hfail
      obtain ⟨e, hres⟩ := opFails_eq_true idx wa (envs i0) (rand i0) entry hfail
      rw [faucetLoop_cons_fail idx wa envs rand entry rest i0 e hres]
      refine ⟨rfl, ?_⟩
      rw [show List.range 1 = [0] from rfl]
      simp [entryAt_cons_zero]
    | succ j' =>
      have h0 := hok 0 (by omega)
      rw [Nat.add_zero, entryAt_cons_zero] at h0
      rw [faucetLoop_cons_pass idx wa envs rand entry rest i0 h0]
      have hfail' : opFails idx wa (envs (i0 + 1 + j')) (rand (i0 + 1 + j'))
          (entryAt rest j') = true := by
        rw [show i0 + 1 + j' = i0 + (j' + 1) from by omega]
        rw [← entryAt_cons_succ entry rest j']
        exact hfail
      have hok' : ∀ i, i < j' → opFails idx wa (envs (i0 + 1 + i)) (rand (i0 + 1 + i))
          (entryAt rest i) = false := by
        intro i hi
        rw [show i0 + 1 + i = i0 + (i + 1) from by omega]
        rw [← entryAt_cons_succ entry rest i]
        exact hok (i + 1) (by omega)
      obtain ⟨ihf, ihe⟩ := ih (i0 + 1) j' (by simpa using hj) hfail' hok'
      refine ⟨by simpa using ihf, ?_⟩
      have hfun : (fun i => (requestFaucetToken idx wa (envs (i0 + 1 + i)) (rand (i0 + 1 + i))
            (entryAt rest i)).effects) =
          ((fun i => (requestFaucetToken idx wa (envs (i0 + i)) (rand (i0 + i))
            (entryAt (entry :: rest) i)).effects) ∘ Nat.succ) := by
        funext i
        show _ = (requestFaucetToken idx wa (envs (i0 + Nat.succ i)) (rand (i0 + Nat.succ i))
          (entryAt (entry :: rest) (Nat.succ i))).effects
        rw [show i0 + Nat.succ i = i0 + 1 + i from by omega]
        rfl
      show (requestFaucetToken idx wa (envs i0) (rand i0) entry).effects ++
          (faucetLoop idx wa envs rand rest (i0 + 1)).2 = _
      conv_rhs => rw [List.range_succ_eq_map, List.map_cons, List.map_map, List.flatten_cons]
      rw [ihe, hfun]
      rfl

/-- Every submission made by `executeTransaction` carries the chain id it
was given. -/
theorem executeTransaction_effects_chainId (env : Env) (tx : Tx) (cid : ℤ) :
    ∀ sub ∈ (executeTransaction env tx cid).2, sub.chainId = cid := by
  intro sub hsub
  unfold executeTransaction at hsub
  cases he : estimateGas env.estimateGasR with
  | error e =>
    rw [he] at hsub
    simp at hsub
  | ok g =>
    rw [he] at hsub
    cases hs : env.sendR with
    | error e =>
      rw [hs] at hsub
      simp at hsub
      rw [hsub]
    | ok h =>
      rw [hs] at hsub
      cases hw : env.waitStatus with
      | error e =>
        rw [hw] at hsub
        simp at hsub
        rw [hsub]
      | ok status =>
        rw [hw] at hsub
        by_cases h1 : status = 1 <;> simp [h1] at hsub <;> rw [hsub]

/-- A property of every attempt's side effects holds of all the effects
`retryAux` accumulates. -/
theorem retryAux_effects_pred {α σ : Type} (idx : String) (op : ℕ → Except String α × List σ)
    (rand : ℕ → ℚ) (lo hi : ℤ) (P : σ → Prop)
    (hP : ∀ a s, s ∈ (op a).2 → P s) :
    ∀ (fuel a : ℕ), ∀ s ∈ (retryAux idx op rand lo hi fuel a).effects, P s := by
  intro fuel
  induction fuel with
  | zero =>
    intro a s hs
    simp [retryAux] at hs
  | succ f ih =>
    intro a s hs
    cases ho : op a with
    | mk r eff =>
      cases r with
      | ok v =>
        rw [retryAux_ok idx op rand lo hi f a v (by rw [ho])] at hs
        exact hP a s hs
      | error e =>
        cases f with
        | zero =>
          rw [retryAux_err_last idx op rand lo hi a e (by rw [ho])] at hs
          exact hP a s hs
        | succ f' =>
          rw [retryAux_err_cont idx op rand lo hi f' a e (by rw [ho])] at hs
          simp only [List.mem_append] at hs
          rcases hs with hs | hs
          · exact hP a s hs
          · exact ih (a + 1) s hs

/-- Every submission made by `_requestFaucetToken` carries `CHAIN_ID`. -/
theorem requestFaucetToken_effects_chainId (idx wa : String) (env : ℕ → Env) (rand : ℕ → ℚ)
    (entry : PayloadEntry) :
    ∀ sub ∈ (requestFaucetToken idx wa env rand entry).effects, sub.chainId = CHAIN_ID := by
  intro sub hsub
  unfold requestFaucetToken retryLogic at hsub
  refine retryAux_effects_pred idx _ rand 5 10 (fun u => u.chainId = CHAIN_ID) ?_ 3 1 sub hsub
  intro a u hu
  simp only at hu
  rw [faucetTokenFn_effects wa entry (env a)] at hu
  exact executeTransaction_effects_chainId (env a)
    ⟨entry.contract, entry.payload, 0, wa⟩ CHAIN_ID u hu

/-- Every submission made by the faucet loop carries `CHAIN_ID`. -/
theorem faucetLoop_effects_chainId (idx wa : String) (envs : ℕ → ℕ → Env) (rand : ℕ → ℕ → ℚ) :
    ∀ (l : List PayloadEntry) (i0 : ℕ),
      ∀ sub ∈ (faucetLoop idx wa envs rand l i0).2, sub.chainId = CHAIN_ID := by
  intro l
  induction l with
  | nil =>
    intro i0 sub h
    simp [faucetLoop] at h
  | cons entry rest ih =>
    intro i0 sub h
    cases hres : (requestFaucetToken idx wa (envs i0) (rand i0) entry).result with
    | none =>
      rw [faucetLoop_cons_none idx wa envs rand entry rest i0 hres] at h
      simp only [List.mem_append] at h
      rcases h with h | h
      · exact requestFaucetToken_effects_chainId idx wa (envs i0) (rand i0) entry sub h
      · exact ih (i0 + 1) sub h
    | some r =>
      cases r with
      | error e =>
        rw [faucetLoop_cons_fail idx wa envs rand entry rest i0 e hres] at h
        exact requestFaucetToken_effects_chainId idx wa (envs i0) (rand i0) entry sub h
      | ok b =>
        rw [faucetLoop_cons_ok idx wa envs rand entry rest i0 b hres] at h
        simp only [List.mem_append] at h
        rcases h with h | h
        · exact requestFaucetToken_effects_chainId idx wa (envs i0) (rand i0) entry sub h
        · exact ih (i0 + 1) sub h

/-- If every operation's first attempt submits and reverts, the loop
returns `true` with exactly one submission per operation. -/
theorem faucetLoop_all_revert (idx wa : String) (envs : ℕ → ℕ → Env) (rand : ℕ → ℕ → ℚ) :
    ∀ (l : List PayloadEntry) (i0 : ℕ),
      (∀ i, i < l.length → ∃ g h s, envs (i0 + i) 1 = ⟨.ok g, .ok h, .ok s⟩ ∧ s ≠ 1) →
      (faucetLoop idx wa envs rand l i0).1 = true ∧
      (faucetLoop idx wa envs rand l i0).2.length = l.length := by
  intro l
  induction l with
  | nil =>
    intro i0 _
    exact ⟨rfl, rfl⟩
  | cons entry rest ih =>
    intro i0 hrev
    obtain ⟨g, h, s, henv, hs⟩ := hrev 0 (by simp)
    rw [Nat.add_zero] at henv
    have hreq := requestFaucetToken_revert idx wa (envs i0) (rand i0) entry g h s hs henv
    have hres : (requestFaucetToken idx wa (envs i0) (rand i0) entry).result =
        some (Except.ok false) := by rw [hreq]
    obtain ⟨ihf, ihe⟩ := ih (i0 + 1) (fun i hi => by
      obtain ⟨g', h', s', he, hs'⟩ := hrev (i + 1) (by simpa using Nat.succ_lt_succ hi)
      exact ⟨g', h', s', by rw [show i0 + 1 + i = i0 + (i + 1) from by omega]; exact he, hs'⟩)
    rw [faucetLoop_cons_ok idx wa envs rand entry rest i0 false hres]
    refine ⟨by simpa using ihf, ?_⟩
    simp only [List.length_append]
    rw [hreq]
    simp [ihe]
    omega

/-- C1 counterexample: with a node whose first attempt submits and reverts
while a second attempt would succeed, `_requestFaucetToken` stops after one
attempt with result `false` — the reverted attempt is not counted as failed
for retry purposes. By contrast, a thrown (transport) first failure with the
same second attempt is retried and succeeds on attempt 2. The absence of a
successful outcome is therefore not treated the same as a thrown error. -/
theorem revert_retry_cex :
    (requestFaucetToken "1" "0xW"
        (fun a => if a = 1 then ⟨.ok 9, .ok "0xh", .ok 0⟩ else ⟨.ok 9, .ok "0xh2", .ok 1⟩)
        (fun _ => 0) ⟨"t", "p", "c"⟩).attempts = 1 ∧
    (requestFaucetToken "1" "0xW"
        (fun a => if a = 1 then ⟨.ok 9, .ok "0xh", .ok 0⟩ else ⟨.ok 9, .ok "0xh2", .ok 1⟩)
        (fun _ => 0) ⟨"t", "p", "c"⟩).result = some (Except.ok false) ∧
    (requestFaucetToken "1" "0xW"
        (fun a => if a = 1 then ⟨.error "down", .ok "0xh", .ok 0⟩ else ⟨.ok 9, .ok "0xh2", .ok 1⟩)
        (fun _ => 0) ⟨"t", "p", "c"⟩).attempts = 2 ∧
    (requestFaucetToken "1" "0xW"
        (fun a => if a = 1 then ⟨.error "down", .ok "0xh", .ok 0⟩ else ⟨.ok 9, .ok "0xh2", .ok 1⟩)
        (fun _ => 0) ⟨"t", "p", "c"⟩).result = some (Except.ok true) := by
  refine ⟨rfl, rfl, ?_, ?_⟩ <;> decide

/-- C1 (amended): for every transaction whose receipt indicates reverted,
the executor returns a failure-indicating (`null`) result rather than
throwing, and `_requestFaucetToken`'s closure maps it to `false`, which
`retryLogic` returns as a completed (non-thrown) outcome after exactly one
attempt, with no backoff sleep and no further retry: a reverted transaction
does not consume the retry budget; only thrown errors do. -/
theorem revert_not_retried (idx wa : String) (envs : ℕ → Env) (rand : ℕ → ℚ)
    (entry : PayloadEntry) (g : ℕ) (h : String) (s : ℕ) (hs : s ≠ 1)
    (henv : envs 1 = ⟨.ok g, .ok h, .ok s⟩) :
    (requestFaucetToken idx wa envs rand entry).result = some (Except.ok false) ∧
    (requestFaucetToken idx wa envs rand entry).attempts = 1 ∧
    (requestFaucetToken idx wa envs rand entry).sleeps = [] ∧
    (requestFaucetToken idx wa envs rand entry).effects =
      [⟨⟨entry.contract, entry.payload, 0, wa⟩, g, CHAIN_ID⟩] := by
  rw [requestFaucetToken_revert idx wa envs rand entry g h s hs henv]
  exact ⟨rfl, rfl, rfl, rfl⟩

/-- Witness for C1 (amended): a concrete reverted first attempt. -/
theorem revert_not_retried_witness :
    (requestFaucetToken "1" "0xW" (fun _ => ⟨.ok 9, .ok "0xh", .ok 0⟩) (fun _ => 0)
        ⟨"t", "p", "c"⟩).result = some (Except.ok false) ∧
    (requestFaucetToken "1" "0xW" (fun _ => ⟨.ok 9, .ok "0xh", .ok 0⟩) (fun _ => 0)
        ⟨"t", "p", "c"⟩).attempts = 1 ∧
    (requestFaucetToken "1" "0xW" (fun _ => ⟨.ok 9, .ok "0xh", .ok 0⟩) (fun _ => 0)
        ⟨"t", "p", "c"⟩).sleeps = [] ∧
    (requestFaucetToken "1" "0xW" (fun _ => ⟨.ok 9, .ok "0xh", .ok 0⟩) (fun _ => 0)
        ⟨"t", "p", "c"⟩).effects = [⟨⟨"c", "p", 0, "0xW"⟩, 9, CHAIN_ID⟩] :=
  revert_not_retried "1" "0xW" (fun _ => ⟨.ok 9, .ok "0xh", .ok 0⟩) (fun _ => 0)
    ⟨"t", "p", "c"⟩ 9 "0xh" 0 (by decide) rfl

/-- C2: for every orchestrated run over a shuffled permutation of the four
token operations, `faucet` returns `true` exactly when no operation exhausts
its retry budget (ends in a throw); and if the operation at position `j` is
the first to do so, the run returns `false` and its submissions are exactly
those of positions `0, …, j` — the operations after it in the shuffled
order are never attempted. -/
theorem faucet_all_or_abort (idx wa addrHex : String) (envs : ℕ → ℕ → Env)
    (rand : ℕ → ℕ → ℚ) (shuffled : List PayloadEntry)
    (hperm : shuffled.Perm (tekoPayloads addrHex)) :
    ((faucet idx wa envs rand shuffled).1 = true ↔
      ∀ k, k < shuffled.length →
        opFails idx wa (envs k) (rand k) (entryAt shuffled k) = false) ∧
    (∀ j, j < shuffled.length →
      opFails idx wa (envs j) (rand j) (entryAt shuffled j) = true →
      (∀ i, i < j → opFails idx wa (envs i) (rand i) (entryAt shuffled i) = false) →
      (faucet idx wa envs rand shuffled).1 = false ∧
      (faucet idx wa envs rand shuffled).2 =
        ((List.range (j + 1)).map (fun i =>
          (requestFaucetToken idx wa (envs i) (rand i)
            (entryAt shuffled i)).effects)).flatten) := by
  constructor
  · have := faucetLoop_true_iff idx wa envs rand shuffled 0
    simpa [faucet] using this
  · intro j hj hfail hok
    have := faucetLoop_abort idx wa envs rand shuffled 0 j hj (by simpa using hfail)
      (fun i hi => by simpa using hok i hi)
    simpa [faucet] using this

/-- C9: every transaction the program submits carries chain id 6342
(`CHAIN_ID`): `executeTransaction` is only ever invoked with `CHAIN_ID`,
which is merged into each `sendTransaction` call. -/
theorem submitted_chainId_6342 (gR : Except String ℤ) (idx wa : String)
    (envs : ℕ → ℕ → Env) (rand : ℕ → ℕ → ℚ) (shuffled : List PayloadEntry) :
    ∀ sub ∈ runProgram gR idx wa envs rand shuffled, sub.chainId = 6342 := by
  intro sub h
  unfold runProgram at h
  cases ht : tekoInit gR with
  | error e =>
    rw [ht] at h
    simp at h
  | ok u =>
    rw [ht] at h
    exact faucetLoop_effects_chainId idx wa envs rand shuffled 0 sub h

/-- Witness for C9: the single submission of a one-entry run. -/
theorem submitted_chainId_6342_witness :
    (⟨⟨"c", "p", 0, "0xW"⟩, 9, 6342⟩ : SubmittedTx).chainId = 6342 :=
  submitted_chainId_6342 (.ok 6342) "1" "0xW" (fun _ _ => ⟨.ok 9, .ok "h", .ok 1⟩)
    (fun _ _ => 0) [⟨"t", "p", "c"⟩] ⟨⟨"c", "p", 0, "0xW"⟩, 9, 6342⟩ (by decide)

/-- C10: in a run where no operation throws past its retry budget — here,
every operation's transaction is submitted and reverts on-chain — `faucet`
still returns `true`: the boolean result of each `_requestFaucetToken` call
is discarded by the orchestration loop, so reverted transactions never make
the aggregate result `false`. -/
theorem faucet_true_despite_reverts (idx wa : String) (envs : ℕ → ℕ → Env)
    (rand : ℕ → ℕ → ℚ) (shuffled : List PayloadEntry)
    (hrev : ∀ i, i < shuffled.length →
      ∃ g h s, envs i 1 = ⟨.ok g, .ok h, .ok s⟩ ∧ s ≠ 1) :
    (faucet idx wa envs rand shuffled).1 = true ∧
    (faucet idx wa envs rand shuffled).2.length = shuffled.length := by
  have := faucetLoop_all_revert idx wa envs rand shuffled 0
    (fun i hi => by simpa using hrev i hi)
  simpa [faucet] using this

/-- Witness for C10: all four operations submit and revert. -/
theorem faucet_true_despite_reverts_witness :
    (faucet "1" "0xW" (fun _ _ => ⟨.ok 9, .ok "h", .ok 0⟩) (fun _ _ => 0)
      (tekoPayloads "aa")).1 = true ∧
    (faucet "1" "0xW" (fun _ _ => ⟨.ok 9, .ok "h", .ok 0⟩) (fun _ _ => 0)
      (tekoPayloads "aa")).2.length = (tekoPayloads "aa").length :=
  faucet_true_despite_reverts "1" "0xW" (fun _ _ => ⟨.ok 9, .ok "h", .ok 0⟩) (fun _ _ => 0)
    (tekoPayloads "aa") (fun i hi => ⟨9, "h", 0, rfl, by decide⟩)

/-- Witness for C2: the canonical order with an all-success node. -/
theorem faucet_all_or_abort_witness :
    (((faucet "1" "0xW" (fun _ _ => ⟨.ok 9, .ok "h", .ok 1⟩) (fun _ _ => 0)
          (tekoPayloads "aa")).1 = true ↔
        ∀ k, k < (tekoPayloads "aa").length →
          opFails "1" "0xW" (fun _ => ⟨.ok 9, .ok "h", .ok 1⟩) (fun _ => 0)
            (entryAt (tekoPayloads "aa") k) = false) ∧
      (∀ j, j < (tekoPayloads "aa").length →
        opFails "1" "0xW" (fun _ => ⟨.ok 9, .ok "h", .ok 1⟩) (fun _ => 0)
          (entryAt (tekoPayloads "aa") j) = true →
        (∀ i, i < j → opFails "1" "0xW" (fun _ => ⟨.ok 9, .ok "h", .ok 1⟩) (fun _ => 0)
          (entryAt (tekoPayloads "aa") i) = false) →
        (faucet "1" "0xW" (fun _ _ => ⟨.ok 9, .ok "h", .ok 1⟩) (fun _ _ => 0)
          (tekoPayloads "aa")).1 = false ∧
        (faucet "1" "0xW" (fun _ _ => ⟨.ok 9, .ok "h", .ok 1⟩) (fun _ _ => 0)
          (tekoPayloads "aa")).2 =
          ((List.range (j + 1)).map (fun i =>
            (requestFaucetToken "1" "0xW" (fun _ => ⟨.ok 9, .ok "h", .ok 1⟩) (fun _ => 0)
              (entryAt (tekoPayloads "aa") i)).effects)).flatten)) :=
  faucet_all_or_abort "1" "0xW" "aa" (fun _ _ => ⟨.ok 9, .ok "h", .ok 1⟩)
    (fun _ _ => 0) (tekoPayloads "aa") (List.Perm.refl _)

end ClaimFaucet
